import Mathlib

/-!
Shallow embedding of the nation-intentkit HTTP API core
(src/app/chat/router.py, src/app/agent/router.py, src/app/auth.py).

Modelling conventions:
- Message ids in the source are XID strings whose lexicographic order matches
  creation order and which are pairwise distinct; they are modelled as Nat.
- The storage layer (intentkit.models: Agent.get, Chat.get, ChatMessage.get,
  the ChatMessageTable select) is the external collaborator described in
  spec sections 1 and 6: an indexable store with get-by-id and
  filter+order+limit queries.  It is modelled as explicit lists.
- HTTPException(status_code, detail) is modelled as the error value
  ApiError.httpError status detail; an unhandled backend exception
  surfacing as a generic server error is ApiError.serverError.
- async handlers are modelled as pure functions; handlers that can write
  return the updated store as the first component of a pair.
- float fields (time_cost, cold_start_cost) carry no arithmetic anywhere in
  the embedded code; they are modelled as Nat.
-/

/-- Error raised by a handler; mirrors fastapi.HTTPException (status, detail)
plus the generic server error produced by an uncaught backend exception. -/
inductive ApiError where
  | httpError (statusCode : Nat) (detail : Option String)
  | serverError
  deriving DecidableEq

/-- Author type of a chat message (intentkit.models.chat.AuthorType); the
router only uses the API variant. -/
inductive AuthorType where
  | API
  | agent
  | system
  deriving DecidableEq

/-- Agent record: id, owner, plus configuration fields. -/
structure AgentRec where
  id : String
  owner : String
  name : String
  description : Option String
  deriving DecidableEq

/-- Chat thread record (intentkit.models.chat.Chat). -/
structure ChatRec where
  id : String
  agent_id : String
  user_id : String
  summary : String
  rounds : Nat
  deriving DecidableEq

/-- Chat message record (intentkit.models.chat.ChatMessage); ids are XID
strings modelled as Nat (creation order = id order). -/
structure ChatMessageRec where
  id : Nat
  agent_id : String
  chat_id : String
  user_id : String
  author_id : String
  author_type : AuthorType
  thread_type : AuthorType
  message : String
  attachments : Option (List String)
  model : Option String
  reply_to : Option Nat
  skill_calls : Option (List String)
  input_tokens : Nat
  output_tokens : Nat
  time_cost : Nat
  credit_event_id : Option String
  credit_cost : Option Nat
  cold_start_cost : Nat
  app_id : Option String
  search_mode : Option Bool
  super_mode : Option Bool
  deriving DecidableEq

/-- The persistent store: agents, chat threads and the message log. -/
structure Db where
  agents : List AgentRec
  chats : List ChatRec
  messages : List ChatMessageRec
  deriving DecidableEq

/-- Agent.get: load an agent by id (storage collaborator). -/
def Agent.get (db : Db) (aid : String) : Option AgentRec :=
  db.agents.find? (fun a => a.id == aid)

/-- Chat.get: load a chat thread by id (storage collaborator). -/
def Chat.get (db : Db) (chat_id : String) : Option ChatRec :=
  db.chats.find? (fun c => c.id == chat_id)

/-- ChatMessage.get: load a message by id (storage collaborator). -/
def ChatMessage.get (db : Db) (message_id : Nat) : Option ChatMessageRec :=
  db.messages.find? (fun m => m.id == message_id)

/-- Chat.delete: hard-delete a chat thread by id (storage collaborator). -/
def Chat.delete (db : Db) (chat : ChatRec) : Db :=
  { db with chats := db.chats.filter (fun c => c.id != chat.id) }

/-- Handler get_agent (src/app/agent/router.py): load the agent, 404 if
absent or not owned by the caller. -/
def get_agent (db : Db) (aid : String) (user_id : String) : Except ApiError AgentRec :=
  match Agent.get db aid with
  | none => .error (.httpError 404 (some "Agent not found"))
  | some agent =>
    if agent.owner = user_id then .ok agent
    else .error (.httpError 404 (some "Agent not found"))

/-- Handler get_chat (src/app/chat/router.py): load the thread, 404 if
absent or if agent_id / user_id do not both match. -/
def get_chat (db : Db) (aid chat_id user_id : String) : Except ApiError ChatRec :=
  match Chat.get db chat_id with
  | none => .error (.httpError 404 (some "Chat not found"))
  | some chat =>
    if chat.agent_id = aid ∧ chat.user_id = user_id then .ok chat
    else .error (.httpError 404 (some "Chat not found"))

/-- Handler update_chat (src/app/chat/router.py): placeholder that performs
the same existence-and-ownership check as get_chat, writes nothing, and
returns the stored thread unchanged. -/
def update_chat (db : Db) (aid chat_id user_id : String) : Db × Except ApiError ChatRec :=
  match Chat.get db chat_id with
  | none => (db, .error (.httpError 404 (some "Chat not found")))
  | some chat =>
    if chat.agent_id = aid ∧ chat.user_id = user_id then (db, .ok chat)
    else (db, .error (.httpError 404 (some "Chat not found")))

/-- Handler delete_chat (src/app/chat/router.py): ownership check then hard
delete; 204 No Content is modelled as Except.ok Unit.unit. -/
def delete_chat (db : Db) (aid chat_id user_id : String) : Db × Except ApiError Unit :=
  match Chat.get db chat_id with
  | none => (db, .error (.httpError 404 (some "Chat not found")))
  | some chat =>
    if chat.agent_id = aid ∧ chat.user_id = user_id then (Chat.delete db chat, .ok ())
    else (db, .error (.httpError 404 (some "Chat not found")))

/-- Handler get_message (src/app/chat/router.py): load a single message by
id, 404 if absent or if user_id does not match. -/
def get_message (db : Db) (message_id : Nat) (user_id : String) : Except ApiError ChatMessageRec :=
  match ChatMessage.get db message_id with
  | none => .error (.httpError 404 (some "Message not found"))
  | some message =>
    if message.user_id = user_id then .ok message
    else .error (.httpError 404 (some "Message not found"))

/-- Descending-id ordering used by the select: ORDER BY id DESC. -/
def idDescRel (a b : ChatMessageRec) : Prop := b.id ≤ a.id

instance : DecidableRel idDescRel :=
  fun a b => inferInstanceAs (Decidable (b.id ≤ a.id))

instance : IsTotal ChatMessageRec idDescRel :=
  ⟨fun a b => Nat.le_total b.id a.id⟩

instance : IsTrans ChatMessageRec idDescRel :=
  ⟨fun _ _ _ h1 h2 => Nat.le_trans h2 h1⟩

/-- Strictly-descending-id ordering; what ORDER BY id DESC yields when the
ids in scope are pairwise distinct. -/
def idDescStrict (a b : ChatMessageRec) : Prop := b.id < a.id

instance : IsAntisymm ChatMessageRec idDescStrict :=
  ⟨fun _ _ h1 h2 => absurd h2 (Nat.lt_asymm h1)⟩

/-- Sorting by id descending: the ORDER BY id DESC of the message select. -/
def sortByIdDesc (l : List ChatMessageRec) : List ChatMessageRec :=
  List.insertionSort idDescRel l

/-- WHERE agent_id == aid AND chat_id == chat_id over the message log. -/
def scoped_messages (db : Db) (aid chat_id : String) : List ChatMessageRec :=
  db.messages.filter (fun m => m.agent_id == aid && m.chat_id == chat_id)

/-- Additional WHERE id < cursor, applied only when a cursor is supplied
(the source guards with a truthiness test; XID ids are never empty, so an
absent-or-empty cursor is modelled as none). -/
def cursor_filter (cursor : Option Nat) (l : List ChatMessageRec) : List ChatMessageRec :=
  match cursor with
  | none => l
  | some c => l.filter (fun m => decide (m.id < c))

/-- The select issued by get_messages: WHERE scope (and id < cursor when
given) ORDER BY id DESC LIMIT limit + 1. -/
def query_messages (db : Db) (aid chat_id : String) (cursor : Option Nat) (limit : Nat) :
    List ChatMessageRec :=
  (sortByIdDesc (cursor_filter cursor (scoped_messages db aid chat_id))).take (limit + 1)

/-- Response shape of get_messages. -/
structure MessagesPage where
  data : List ChatMessageRec
  has_more : Bool
  next_cursor : Option Nat
  deriving DecidableEq

/-- Handler get_messages (src/app/chat/router.py): ownership check, then
cursor pagination by over-fetching limit + 1 rows. -/
def get_messages (db : Db) (aid chat_id user_id : String) (cursor : Option Nat) (limit : Nat) :
    Except ApiError MessagesPage :=
  match Chat.get db chat_id with
  | none => .error (.httpError 404 (some "Chat not found"))
  | some chat =>
    if chat.agent_id = aid ∧ chat.user_id = user_id then
      let messages := query_messages db aid chat_id cursor limit
      let has_more : Bool := decide (limit < messages.length)
      let messages_to_return := messages.take limit
      let next_cursor : Option Nat :=
        if has_more = true ∧ messages_to_return ≠ [] then
          (messages_to_return.getLast?).map (fun m => m.id)
        else none
      .ok { data := messages_to_return, has_more := has_more, next_cursor := next_cursor }
    else .error (.httpError 404 (some "Chat not found"))

/-- Request body of send_message (ChatMessageRequest). -/
structure ChatMessageRequest where
  app_id : Option String
  user_id : String
  message : String
  stream : Option Bool
  search_mode : Option Bool
  super_mode : Option Bool
  attachments : Option (List String)
  deriving DecidableEq

/-- Execution backend collaborator (intentkit.core.engine): execute_agent
collects the produced messages or fails; stream_agent yields a finite
sequence of chunks, with a flag recording whether the backend sequence
terminated with an error after producing them. -/
structure ExecBackend (Chunk : Type) where
  execute_agent : ChatMessageRec → Except Unit (List ChatMessageRec)
  stream_agent : ChatMessageRec → List Chunk × Bool
  serializeChunk : Chunk → String

/-- Generator stream_gen inside send_message: for each chunk, in backend
production order, emit its serialization followed by a newline; each unit
is produced from its own chunk alone, before the rest of the backend
sequence is consumed. -/
def stream_gen {Chunk : Type} (serialize : Chunk → String) : List Chunk → List String
  | [] => []
  | c :: rest => (serialize c ++ "\n") :: stream_gen serialize rest

/-- Response of send_message: a buffered batch or a streamed body (the list
of newline-delimited units, in emission order). -/
inductive SendResponse (Chunk : Type) where
  | buffered (messages : List ChatMessageRec)
  | streamed (body : List String)

/-- The user message record built by send_message before dispatch. -/
def mkUserMessage (new_id : Nat) (aid chat_id user_id : String) (request : ChatMessageRequest) :
    ChatMessageRec :=
  { id := new_id
    agent_id := aid
    chat_id := chat_id
    user_id := user_id
    author_id := user_id
    author_type := .API
    thread_type := .API
    message := request.message
    attachments := request.attachments
    model := none
    reply_to := none
    skill_calls := none
    input_tokens := 0
    output_tokens := 0
    time_cost := 0
    credit_event_id := none
    credit_cost := none
    cold_start_cost := 0
    app_id := request.app_id
    search_mode := request.search_mode
    super_mode := request.super_mode }

/-- Handler send_message (src/app/chat/router.py): 404 only when the agent
is absent; persist the user message; then dispatch in streamed or buffered
mode.  new_id stands for the freshly generated XID. -/
def send_message {Chunk : Type} (db : Db) (backend : ExecBackend Chunk) (new_id : Nat)
    (request : ChatMessageRequest) (aid chat_id user_id : String) :
    Db × Except ApiError (SendResponse Chunk) :=
  match Agent.get db aid with
  | none => (db, .error (.httpError 404 (some ("Agent " ++ aid ++ " not found"))))
  | some _ =>
    let user_message := mkUserMessage new_id aid chat_id user_id request
    let db1 : Db := { db with messages := db.messages ++ [user_message] }
    if request.stream = some true then
      (db1, .ok (.streamed (stream_gen backend.serializeChunk (backend.stream_agent user_message).1)))
    else
      match backend.execute_agent user_message with
      | .ok response_messages => (db1, .ok (.buffered response_messages))
      | .error _ => (db1, .error .serverError)

/-- Handler retry_message (src/app/chat/router.py): unconditional 501 stub
(HTTPException with no detail). -/
def retry_message (db : Db) (aid chat_id user_id : String) : Db × Except ApiError Unit :=
  (db, .error (.httpError 501 none))

/-- Client-side pagination loop of the spec: call get_messages with no
cursor, then re-issue with the returned next_cursor while has_more holds,
concatenating the pages; fuel bounds the recursion. -/
def paginate_loop (db : Db) (aid chat_id user_id : String) (limit : Nat) :
    Nat → Option Nat → List ChatMessageRec
  | 0, _ => []
  | fuel + 1, cursor =>
    match get_messages db aid chat_id user_id cursor limit with
    | .error _ => []
    | .ok page =>
      if page.has_more then
        page.data ++ paginate_loop db aid chat_id user_id limit fuel page.next_cursor
      else
        page.data

/-- Full pagination run starting with no cursor, with enough fuel for any
thread of this length. -/
def paginate_all (db : Db) (aid chat_id user_id : String) (limit : Nat) : List ChatMessageRec :=
  paginate_loop db aid chat_id user_id limit ((scoped_messages db aid chat_id).length + 1) none

/-- Modelled from the spec: section 4.3 listMessages, the refinement model
for claim C2, built from the wording of the spec rather than the source:
select the scoped messages (restricted to id < cursor when a cursor is
given) ordered by id descending, fetch limit + 1 rows; if more than limit
rows came back, has_more is true and next_cursor is the id of the last row
actually returned (the limit-th row, not the probe row); otherwise
has_more is false and next_cursor is null. -/
def listMessages_specModel (db : Db) (aid chat_id : String) (cursor : Option Nat) (limit : Nat) :
    MessagesPage :=
  let fetched := (sortByIdDesc (cursor_filter cursor (scoped_messages db aid chat_id))).take (limit + 1)
  if limit < fetched.length then
    { data := fetched.take limit
      has_more := true
      next_cursor := ((fetched.take limit).getLast?).map (fun m => m.id) }
  else
    { data := fetched, has_more := false, next_cursor := none }

/-- Auth configuration (src/app/config.py): env string and the optional
JWT_SECRET; the Privy app credentials live in the Privy client model. -/
structure AuthConfig where
  env : String
  jwt_secret : Option String

/-- Claim set carried by a JWT; only the sub claim is read by the code, and
it may be absent (a missing key raises and is caught by the except). -/
structure JwtPayload where
  sub : Option String
  deriving DecidableEq

/-- Bearer token value: either a signed claim set recording which secret it
was signed with, or an arbitrary non-JWT string. -/
inductive TokenVal where
  | jwt (payload : JwtPayload) (signedWith : String)
  | raw (s : String)
  deriving DecidableEq

/-- String.endsWith, expressed on the underlying character list. -/
def str_endsWith (s t : String) : Bool :=
  t.data.isSuffixOf s.data

/-- Deployment-mode test of src/app/auth.py: external-identity (Privy) mode
when env ends with dev or prod. -/
def is_privy_mode (cfg : AuthConfig) : Bool :=
  str_endsWith cfg.env "dev" || str_endsWith cfg.env "prod"

/-- Modelled from the spec: the external jwt library call
jwt.decode(token, secret, algorithms=[HS256]) is not part of src/; per the
spec it decodes the token as a signed claim set using a pre-shared secret
and a fixed signing algorithm, and any decode, signature or expiry error
raises.  Idealized signature check: decoding succeeds exactly when the
token is a claim set signed with the given secret. -/
def jwt_decode (secret : String) : TokenVal → Except Unit JwtPayload
  | .jwt payload signedWith => if signedWith = secret then .ok payload else .error ()
  | .raw _ => .error ()

/-- External identity provider client (privy): verify_access_token resolves
a token to a user id or raises; get_user confirms the user still exists or
raises.  Raising is modelled as none. -/
structure PrivyClient where
  verify_access_token : TokenVal → Option String
  get_user : String → Option Unit

/-- Body of the try block of get_user_id (src/app/auth.py): Privy mode
verifies the token and re-looks the user up; local-secret mode decodes the
JWT and returns its sub claim (a missing sub raises); open mode returns
the fixed placeholder identity.  Any raise is Except.error. -/
def verify_attempt (cfg : AuthConfig) (privy_client : PrivyClient) (t : TokenVal) :
    Except Unit String :=
  if is_privy_mode cfg then
    match privy_client.verify_access_token t with
    | none => .error ()
    | some uid =>
      match privy_client.get_user uid with
      | none => .error ()
      | some _ => .ok uid
  else
    match cfg.jwt_secret with
    | some secret =>
      if secret ≠ "" then
        match jwt_decode secret t with
        | .ok payload =>
          match payload.sub with
          | some s => .ok s
          | none => .error ()
        | .error _ => .error ()
      else .ok "test_user_id"
    | none => .ok "test_user_id"

/-- Dependency get_user_id (src/app/auth.py): empty token fails with 401
missing-credential; otherwise the try/except around the mode dispatch
collapses every verification error to 401 invalid-or-expired. -/
def get_user_id (cfg : AuthConfig) (privy_client : PrivyClient) (token : Option TokenVal) :
    Except ApiError String :=
  match token with
  | none => .error (.httpError 401 (some "Missing Authorization header"))
  | some t =>
    match verify_attempt cfg privy_client t with
    | .ok uid => .ok uid
    | .error _ => .error (.httpError 401 (some "Invalid or expired token"))

/-- Concrete request fixture used by the witnesses. -/
def wreq : ChatMessageRequest :=
  { app_id := none, user_id := "u1", message := "hi", stream := none,
    search_mode := none, super_mode := none, attachments := none }

/-- Concrete streaming request fixture. -/
def wreqStream : ChatMessageRequest :=
  { wreq with stream := some true }

/-- Concrete message fixture with id i. -/
def wmsg (i : Nat) : ChatMessageRec := mkUserMessage i "a1" "c1" "u1" wreq

/-- Concrete store fixture: one agent owned by u1, one chat of u1, five
messages. -/
def wdb : Db :=
  { agents := [{ id := "a1", owner := "u1", name := "A", description := none }]
    chats := [{ id := "c1", agent_id := "a1", user_id := "u1", summary := "", rounds := 0 }]
    messages := [wmsg 1, wmsg 2, wmsg 3, wmsg 4, wmsg 5] }

/-- Backend fixture whose buffered execution fails and whose stream errors
before producing anything. -/
def wbackendFail : ExecBackend Unit :=
  { execute_agent := fun _ => .error ()
    stream_agent := fun _ => ([], true)
    serializeChunk := fun _ => "chunk" }

/-- Backend fixture that streams two chunks and then errors. -/
def wbackendStream : ExecBackend Unit :=
  { execute_agent := fun _ => .ok []
    stream_agent := fun _ => ([(), ()], true)
    serializeChunk := fun _ => "chunk" }

/-! ### Sorting and pagination lemmas -/

theorem sortByIdDesc_sorted (l : List ChatMessageRec) :
    List.Sorted idDescRel (sortByIdDesc l) :=
  List.sorted_insertionSort idDescRel l

theorem sortByIdDesc_perm (l : List ChatMessageRec) : (sortByIdDesc l).Perm l :=
  List.perm_insertionSort idDescRel l

theorem nodupIds_pairwise {l : List ChatMessageRec}
    (h : (l.map (fun m => m.id)).Nodup) : l.Pairwise (fun a b => a.id ≠ b.id) :=
  List.pairwise_map.mp h

theorem sortByIdDesc_strict {l : List ChatMessageRec}
    (h : (l.map (fun m => m.id)).Nodup) :
    List.Sorted idDescStrict (sortByIdDesc l) := by
  have hne : (sortByIdDesc l).Pairwise (fun a b => a.id ≠ b.id) :=
    ((sortByIdDesc_perm l).pairwise_iff (fun h1 h2 => h1 h2.symm)).mpr (nodupIds_pairwise h)
  have hle : (sortByIdDesc l).Pairwise idDescRel := sortByIdDesc_sorted l
  exact (hle.and hne).imp
    (fun hab => Nat.lt_of_le_of_ne hab.1 (fun hid => hab.2 hid.symm))

theorem nodupIds_filter {l : List ChatMessageRec} (p : ChatMessageRec → Bool)
    (h : (l.map (fun m => m.id)).Nodup) :
    ((l.filter p).map (fun m => m.id)).Nodup :=
  (List.Sublist.map (fun m => m.id) (List.filter_sublist l)).nodup h

theorem sortByIdDesc_filter {l : List ChatMessageRec} (p : ChatMessageRec → Bool)
    (h : (l.map (fun m => m.id)).Nodup) :
    sortByIdDesc (l.filter p) = (sortByIdDesc l).filter p :=
  List.eq_of_perm_of_sorted (r := idDescStrict)
    ((sortByIdDesc_perm _).trans (((sortByIdDesc_perm l).filter p).symm))
    (sortByIdDesc_strict (nodupIds_filter p h))
    ((sortByIdDesc_strict h).filter p)

theorem filter_filter_of_imp {α : Type} (p q : α → Bool) (h : ∀ x, p x = true → q x = true)
    (l : List α) : (l.filter q).filter p = l.filter p := by
  induction l with
  | nil => rfl
  | cons a t ih =>
    by_cases hq : q a = true
    · by_cases hp : p a = true
      · simp [List.filter_cons, hq, hp, ih]
      · simp [List.filter_cons, hq, hp, ih]
    · have hp : ¬ p a = true := fun hp => hq (h a hp)
      simp [List.filter_cons, hq, hp, ih]

theorem mem_of_getLast?_eq_some {α : Type} {l : List α} {a : α}
    (h : l.getLast? = some a) : a ∈ l := by
  cases l with
  | nil => simp at h
  | cons b t =>
    have hne : (b :: t) ≠ [] := by simp
    rw [List.getLast?_eq_getLast _ hne] at h
    rw [← Option.some.inj h]
    exact List.getLast_mem hne

theorem sorted_filter_lt_takeLast :
    ∀ (l : List ChatMessageRec), List.Sorted idDescStrict l →
      ∀ (n : Nat) (last : ChatMessageRec), 1 ≤ n → (l.take n).getLast? = some last →
        l.filter (fun m => decide (m.id < last.id)) = l.drop n := by
  intro l
  induction l with
  | nil => intro _ n last _ hlast; simp at hlast
  | cons a t ih =>
    intro hs n last hn hlast
    have hts : List.Sorted idDescStrict t := hs.of_cons
    match n, hn with
    | 1, _ =>
      have h1 : ((a :: t).take 1).getLast? = some a := by simp
      rw [h1] at hlast
      obtain rfl : a = last := Option.some.inj hlast
      have hhead : decide (a.id < a.id) = false := by simp
      have htail : t.filter (fun m => decide (m.id < a.id)) = t :=
        List.filter_eq_self.mpr
          (fun x hx => decide_eq_true (List.rel_of_sorted_cons hs x hx))
      simp [List.filter_cons, hhead, htail]
    | (k + 2), _ =>
      by_cases ht : t.take (k + 1) = []
      · have htnil : t = [] := by
          rcases List.take_eq_nil_iff.mp ht with h | h
          · omega
          · exact h
        subst htnil
        have h1 : ((a :: ([] : List ChatMessageRec)).take (k + 2)).getLast? = some a := by simp
        rw [h1] at hlast
        obtain rfl : a = last := Option.some.inj hlast
        have hhead : decide (a.id < a.id) = false := by simp
        simp [List.filter_cons, hhead]
      · obtain ⟨b, rest, hbt⟩ := List.exists_cons_of_ne_nil ht
        have htake : ((a :: t).take (k + 2)).getLast? = (t.take (k + 1)).getLast? := by
          rw [List.take_succ_cons, hbt, List.getLast?_cons_cons]
        rw [htake] at hlast
        have hmemtake : last ∈ t.take (k + 1) := mem_of_getLast?_eq_some hlast
        have hmem : last ∈ t := List.mem_of_mem_take hmemtake
        have hlt : last.id < a.id := List.rel_of_sorted_cons hs last hmem
        have hhead : decide (a.id < last.id) = false := by
          simp only [decide_eq_false_iff_not]
          omega
        have htail := ih hts (k + 1) last (by omega) hlast
        simp [List.filter_cons, hhead, htail, List.drop_succ_cons]

theorem query_messages_eq {db : Db} {aid chat_id : String}
    (h : ((scoped_messages db aid chat_id).map (fun m => m.id)).Nodup)
    (cursor : Option Nat) (limit : Nat) :
    query_messages db aid chat_id cursor limit =
      (cursor_filter cursor (sortByIdDesc (scoped_messages db aid chat_id))).take (limit + 1) := by
  cases cursor with
  | none => rfl
  | some c =>
    unfold query_messages cursor_filter
    rw [sortByIdDesc_filter _ h]

theorem get_messages_ok {db : Db} {aid chat_id user_id : String} {chat : ChatRec}
    (hchat : Chat.get db chat_id = some chat) (ha : chat.agent_id = aid)
    (hu : chat.user_id = user_id) (cursor : Option Nat) (limit : Nat) :
    get_messages db aid chat_id user_id cursor limit =
      .ok { data := (query_messages db aid chat_id cursor limit).take limit
            has_more := decide (limit < (query_messages db aid chat_id cursor limit).length)
            next_cursor :=
              if decide (limit < (query_messages db aid chat_id cursor limit).length) = true
                  ∧ (query_messages db aid chat_id cursor limit).take limit ≠ [] then
                (((query_messages db aid chat_id cursor limit).take limit).getLast?).map
                  (fun m => m.id)
              else none } := by
  unfold get_messages
  rw [hchat]
  simp [ha, hu]

theorem paginate_loop_eq {db : Db} {aid chat_id user_id : String} {chat : ChatRec}
    (hchat : Chat.get db chat_id = some chat) (ha : chat.agent_id = aid)
    (hu : chat.user_id = user_id)
    (hnodup : ((scoped_messages db aid chat_id).map (fun m => m.id)).Nodup)
    {limit : Nat} (hlim : 1 ≤ limit) :
    ∀ (fuel : Nat) (cursor : Option Nat),
      (cursor_filter cursor (sortByIdDesc (scoped_messages db aid chat_id))).length ≤ fuel →
      paginate_loop db aid chat_id user_id limit fuel cursor =
        cursor_filter cursor (sortByIdDesc (scoped_messages db aid chat_id)) := by
  intro fuel
  induction fuel with
  | zero =>
    intro cursor hle
    have hnil : cursor_filter cursor (sortByIdDesc (scoped_messages db aid chat_id)) = [] :=
      List.eq_nil_of_length_eq_zero (Nat.le_zero.mp hle)
    simp [paginate_loop, hnil]
  | succ fuel ih =>
    intro cursor hle
    have hq : query_messages db aid chat_id cursor limit =
        (cursor_filter cursor (sortByIdDesc (scoped_messages db aid chat_id))).take (limit + 1) :=
      query_messages_eq hnodup cursor limit
    set s := sortByIdDesc (scoped_messages db aid chat_id) with hs_def
    set f := cursor_filter cursor s with hf_def
    have hlen : (f.take (limit + 1)).length = min (limit + 1) f.length := by
      simpa using List.length_take (limit + 1) f
    simp only [paginate_loop, get_messages_ok hchat ha hu cursor limit, hq]
    by_cases hmore : limit < f.length
    · have hmore2 : limit < (f.take (limit + 1)).length := by omega
      have hdata : (f.take (limit + 1)).take limit = f.take limit := by
        rw [List.take_take]
        congr 1
        omega
      have hdatalen : (f.take limit).length = limit := by
        simpa using by omega
      have hne : f.take limit ≠ [] := by
        apply List.ne_nil_of_length_pos
        omega
      obtain ⟨last, hlast⟩ : ∃ last, (f.take limit).getLast? = some last := by
        cases hgl : (f.take limit).getLast? with
        | none => exact absurd (List.getLast?_eq_none.mp hgl) hne
        | some x => exact ⟨x, rfl⟩
      have hfilter : s.filter (fun m => decide (m.id < last.id)) = f.drop limit := by
        have hss : List.Sorted idDescStrict s := sortByIdDesc_strict hnodup
        cases cursor with
        | none =>
          exact sorted_filter_lt_takeLast s hss limit last hlim hlast
        | some c =>
          have hsf : List.Sorted idDescStrict f := by
            rw [hf_def]
            exact hss.filter _
          have h1 : f.filter (fun m => decide (m.id < last.id)) = f.drop limit :=
            sorted_filter_lt_takeLast f hsf limit last hlim hlast
          have hlastf : last ∈ f := List.mem_of_mem_take (mem_of_getLast?_eq_some hlast)
          have hlastc : last.id < c := by
            rw [hf_def] at hlastf
            simp only [cursor_filter, List.mem_filter, decide_eq_true_eq] at hlastf
            exact hlastf.2
          have h2 : (s.filter (fun m => decide (m.id < c))).filter
              (fun m => decide (m.id < last.id)) =
              s.filter (fun m => decide (m.id < last.id)) := by
            apply filter_filter_of_imp
            intro x hx
            simp only [decide_eq_true_eq] at hx ⊢
            omega
          rw [hf_def] at h1
          simp only [cursor_filter] at h1 ⊢
          rw [← h2, h1]
          rfl
      have hrec := ih (some last.id) (by
        have : (cursor_filter (some last.id) s).length = (f.drop limit).length := by
          simp only [cursor_filter]
          rw [hfilter]
        rw [this, List.length_drop]
        omega)
      have hrec2 : paginate_loop db aid chat_id user_id limit fuel (some last.id) =
          f.drop limit := by
        rw [hrec]
        simp only [cursor_filter]
        exact hfilter
      have hcondpos : decide (limit < (List.take (limit + 1) f).length) = true := by
        simpa using hmore2
      rw [if_pos hcondpos]
      have hcond2 : decide (limit < (List.take (limit + 1) f).length) = true
          ∧ List.take limit (List.take (limit + 1) f) ≠ [] := by
        constructor
        · exact hcondpos
        · rw [hdata]; exact hne
      rw [if_pos hcond2]
      rw [hdata, hlast]
      simp only [Option.map]
      rw [hrec2]
      exact List.take_append_drop limit f
    · have hmore2 : ¬ limit < (f.take (limit + 1)).length := by omega
      have hflen : f.length ≤ limit := by omega
      have h1 : f.take (limit + 1) = f := List.take_of_length_le (by omega)
      have h2 : f.take limit = f := List.take_of_length_le hflen
      have hcondneg : ¬ decide (limit < (List.take (limit + 1) f).length) = true := by
        simpa using hmore2
      rw [if_neg hcondneg]
      rw [h1, h2]

theorem stream_gen_map {Chunk : Type} (serialize : Chunk → String) (chunks : List Chunk) :
    stream_gen serialize chunks = chunks.map (fun c => serialize c ++ "\n") := by
  induction chunks with
  | nil => rfl
  | cons c rest ih => simp [stream_gen, ih]

theorem stream_gen_take {Chunk : Type} (serialize : Chunk → String) (chunks : List Chunk)
    (n : Nat) :
    (stream_gen serialize chunks).take n = stream_gen serialize (chunks.take n) := by
  rw [stream_gen_map, stream_gen_map, List.map_take]

theorem stream_gen_append {Chunk : Type} (serialize : Chunk → String)
    (l1 l2 : List Chunk) :
    stream_gen serialize (l1 ++ l2) = stream_gen serialize l1 ++ stream_gen serialize l2 := by
  rw [stream_gen_map, stream_gen_map, stream_gen_map, List.map_append]

theorem send_message_fst {Chunk : Type} {db : Db} {aid : String} {a : AgentRec}
    (backend : ExecBackend Chunk) (new_id : Nat) (request : ChatMessageRequest)
    (chat_id user_id : String) (hagent : Agent.get db aid = some a) :
    (send_message db backend new_id request aid chat_id user_id).1 =
      { db with messages := db.messages ++ [mkUserMessage new_id aid chat_id user_id request] } := by
  unfold send_message
  rw [hagent]
  by_cases hs : request.stream = some true
  · simp [hs]
  · simp only [if_neg hs]
    cases backend.execute_agent (mkUserMessage new_id aid chat_id user_id request) <;> rfl

theorem send_message_snd {Chunk : Type} {db : Db} {aid : String} {a : AgentRec}
    (backend : ExecBackend Chunk) (new_id : Nat) (request : ChatMessageRequest)
    (chat_id user_id : String) (hagent : Agent.get db aid = some a) :
    (send_message db backend new_id request aid chat_id user_id).2 =
      if request.stream = some true then
        .ok (.streamed (stream_gen backend.serializeChunk
          (backend.stream_agent (mkUserMessage new_id aid chat_id user_id request)).1))
      else
        match backend.execute_agent (mkUserMessage new_id aid chat_id user_id request) with
        | .ok ms => .ok (.buffered ms)
        | .error _ => .error .serverError := by
  unfold send_message
  rw [hagent]
  by_cases hs : request.stream = some true
  · simp [hs]
  · simp only [if_neg hs]
    cases backend.execute_agent (mkUserMessage new_id aid chat_id user_id request) <;> rfl

/-! ### Claims -/

/-- C1: for every thread with pairwise-distinct message ids and every limit
L with 1 <= L <= 100, paginating from no cursor and re-issuing with the
returned next_cursor until has_more is false yields every message of the
thread exactly once (a permutation of the thread scope) in strictly
decreasing id order across the concatenated pages. -/
theorem claim_C1_pagination_complete {db : Db} {aid chat_id user_id : String} {chat : ChatRec}
    (hchat : Chat.get db chat_id = some chat) (ha : chat.agent_id = aid)
    (hu : chat.user_id = user_id)
    (hnodup : ((scoped_messages db aid chat_id).map (fun m => m.id)).Nodup)
    {limit : Nat} (hlim1 : 1 ≤ limit) (hlim100 : limit ≤ 100) :
    (paginate_all db aid chat_id user_id limit).Perm (scoped_messages db aid chat_id) ∧
    List.Sorted idDescStrict (paginate_all db aid chat_id user_id limit) := by
  have hlen : (cursor_filter none (sortByIdDesc (scoped_messages db aid chat_id))).length ≤
      (scoped_messages db aid chat_id).length + 1 := by
    simp only [cursor_filter]
    rw [(sortByIdDesc_perm _).length_eq]
    omega
  have h := paginate_loop_eq hchat ha hu hnodup hlim1
    ((scoped_messages db aid chat_id).length + 1) none hlen
  unfold paginate_all
  rw [h]
  simp only [cursor_filter]
  exact ⟨sortByIdDesc_perm _, sortByIdDesc_strict hnodup⟩

theorem claim_C1_pagination_complete_witness :
    (paginate_all wdb "a1" "c1" "u1" 2).Perm (scoped_messages wdb "a1" "c1") ∧
    List.Sorted idDescStrict (paginate_all wdb "a1" "c1" "u1" 2) :=
  @claim_C1_pagination_complete wdb "a1" "c1" "u1"
    { id := "c1", agent_id := "a1", user_id := "u1", summary := "", rounds := 0 }
    rfl rfl rfl (by decide) 2 (by decide) (by decide)

/-- C2: on an owned thread, get_messages computes exactly the spec's
over-fetch-by-one algorithm: select ordered by id descending restricted to
id < cursor when given, fetch limit + 1 rows; has_more iff more than limit
rows were fetched; on has_more the next_cursor is the id of the last row
actually returned (the probe row is excluded from data); otherwise
has_more is false and next_cursor is null. -/
theorem claim_C2_page_algorithm {db : Db} {aid chat_id user_id : String} {chat : ChatRec}
    (hchat : Chat.get db chat_id = some chat) (ha : chat.agent_id = aid)
    (hu : chat.user_id = user_id) (cursor : Option Nat) (limit : Nat) :
    get_messages db aid chat_id user_id cursor limit =
      .ok (listMessages_specModel db aid chat_id cursor limit) ∧
    ∀ page, get_messages db aid chat_id user_id cursor limit = .ok page →
      (page.has_more = true ↔ limit < (query_messages db aid chat_id cursor limit).length) ∧
      page.data.length ≤ limit ∧
      (page.has_more = false → page.next_cursor = none) := by
  have hQ : listMessages_specModel db aid chat_id cursor limit =
      (if limit < (query_messages db aid chat_id cursor limit).length then
        { data := (query_messages db aid chat_id cursor limit).take limit
          has_more := true
          next_cursor := (((query_messages db aid chat_id cursor limit).take limit).getLast?).map
            (fun m => m.id) }
      else
        { data := query_messages db aid chat_id cursor limit
          has_more := false
          next_cursor := none }) := rfl
  have hqlen : (query_messages db aid chat_id cursor limit).length ≤ limit + 1 := by
    unfold query_messages
    simpa using Nat.min_le_left (limit + 1) _
  have hspec : get_messages db aid chat_id user_id cursor limit =
      .ok (listMessages_specModel db aid chat_id cursor limit) := by
    rw [get_messages_ok hchat ha hu, hQ]
    by_cases hc : limit < (query_messages db aid chat_id cursor limit).length
    · rw [if_pos hc]
      have hhm : decide (limit < (query_messages db aid chat_id cursor limit).length) = true :=
        decide_eq_true hc
      by_cases hnil : (query_messages db aid chat_id cursor limit).take limit = []
      · rw [if_neg (fun hand => hand.2 hnil)]
        simp [hhm, hnil]
      · rw [if_pos ⟨hhm, hnil⟩]
        simp [hhm]
    · rw [if_neg hc]
      have hhm : decide (limit < (query_messages db aid chat_id cursor limit).length) = false :=
        decide_eq_false hc
      have htk : (query_messages db aid chat_id cursor limit).take limit =
          query_messages db aid chat_id cursor limit :=
        List.take_of_length_le (by omega)
      rw [if_neg (fun hand => by rw [hhm] at hand; exact absurd hand.1 (by simp))]
      simp [hhm, htk]
  refine ⟨hspec, ?_⟩
  intro page hpage
  rw [hspec] at hpage
  obtain rfl : listMessages_specModel db aid chat_id cursor limit = page :=
    Except.ok.inj hpage
  rw [hQ]
  by_cases hc : limit < (query_messages db aid chat_id cursor limit).length
  · rw [if_pos hc]
    refine ⟨by simpa using hc, ?_, by simp⟩
    simp only [List.length_take]
    omega
  · rw [if_neg hc]
    refine ⟨by simpa using hc, ?_, fun _ => rfl⟩
    show (query_messages db aid chat_id cursor limit).length ≤ limit
    omega

theorem claim_C2_page_algorithm_witness :
    get_messages wdb "a1" "c1" "u1" none 2 = .ok (listMessages_specModel wdb "a1" "c1" none 2) :=
  (@claim_C2_page_algorithm wdb "a1" "c1" "u1"
    { id := "c1", agent_id := "a1", user_id := "u1", summary := "", rounds := 0 }
    rfl rfl rfl none 2).1

/-- C3: every ownership-scoped read, update or delete fails with the one
structurally identical 404 not-found error both when the entity is absent
and when it exists but its scoping fields do not match the caller; in
particular any caller other than the owner gets exactly that 404. -/
theorem claim_C3_uniform_not_found (db : Db) (aid chat_id user_id : String) (mid : Nat) :
    (Agent.get db aid = none →
      get_agent db aid user_id = .error (.httpError 404 (some "Agent not found"))) ∧
    (∀ a, Agent.get db aid = some a → a.owner ≠ user_id →
      get_agent db aid user_id = .error (.httpError 404 (some "Agent not found"))) ∧
    ((Chat.get db chat_id = none ∨
        ∃ c, Chat.get db chat_id = some c ∧ ¬(c.agent_id = aid ∧ c.user_id = user_id)) →
      get_chat db aid chat_id user_id = .error (.httpError 404 (some "Chat not found")) ∧
      update_chat db aid chat_id user_id = (db, .error (.httpError 404 (some "Chat not found"))) ∧
      delete_chat db aid chat_id user_id = (db, .error (.httpError 404 (some "Chat not found"))) ∧
      ∀ cursor limit, get_messages db aid chat_id user_id cursor limit =
        .error (.httpError 404 (some "Chat not found"))) ∧
    (ChatMessage.get db mid = none →
      get_message db mid user_id = .error (.httpError 404 (some "Message not found"))) ∧
    (∀ m, ChatMessage.get db mid = some m → m.user_id ≠ user_id →
      get_message db mid user_id = .error (.httpError 404 (some "Message not found"))) ∧
    (∀ c u2, Chat.get db chat_id = some c → c.user_id ≠ u2 →
      get_chat db aid chat_id u2 = .error (.httpError 404 (some "Chat not found"))) := by
  refine ⟨?_, ?_, ?_, ?_, ?_, ?_⟩
  · intro h
    unfold get_agent
    rw [h]
  · intro a h hown
    unfold get_agent
    rw [h]
    simp [hown]
  · intro h
    rcases h with h | ⟨c, hc, hno⟩
    · refine ⟨?_, ?_, ?_, ?_⟩ <;>
        first
        | (unfold get_chat; rw [h])
        | (unfold update_chat; rw [h])
        | (unfold delete_chat; rw [h])
        | (intro cursor limit; unfold get_messages; rw [h])
    · refine ⟨?_, ?_, ?_, ?_⟩
      · unfold get_chat
        rw [hc]
        simp [hno]
      · unfold update_chat
        rw [hc]
        simp [hno]
      · unfold delete_chat
        rw [hc]
        simp [hno]
      · intro cursor limit
        unfold get_messages
        rw [hc]
        simp [hno]
  · intro h
    unfold get_message
    rw [h]
  · intro m h hown
    unfold get_message
    rw [h]
    simp [hown]
  · intro c u2 hc hne
    unfold get_chat
    rw [hc]
    have hno2 : ¬(c.agent_id = aid ∧ c.user_id = u2) := fun hand => hne hand.2
    simp [hno2]

theorem claim_C3_uniform_not_found_witness :
    get_agent wdb "a1" "u2" = .error (.httpError 404 (some "Agent not found")) ∧
    get_chat wdb "a1" "c1" "u2" = .error (.httpError 404 (some "Chat not found")) ∧
    get_agent wdb "zzz" "u1" = .error (.httpError 404 (some "Agent not found")) :=
  ⟨(claim_C3_uniform_not_found wdb "a1" "c1" "u2" 1).2.1
      { id := "a1", owner := "u1", name := "A", description := none } rfl (by decide),
    (claim_C3_uniform_not_found wdb "a1" "c1" "u2" 1).2.2.2.2.2
      { id := "c1", agent_id := "a1", user_id := "u1", summary := "", rounds := 0 } "u2"
      rfl (by decide),
    (claim_C3_uniform_not_found wdb "zzz" "c1" "u1" 1).1 rfl⟩

/-- C4: in local-secret mode (non-Privy env, non-empty JWT secret), a token
validly signed with the configured secret verifies to its sub claim, and a
token signed with any other secret fails with the 401
invalid-or-expired-credential error. -/
theorem claim_C4_local_secret_verify (cfg : AuthConfig) (privy_client : PrivyClient)
    (secret : String) (hmode : is_privy_mode cfg = false) (hsec : cfg.jwt_secret = some secret)
    (hne : secret ≠ "") :
    (∀ payload sub, payload.sub = some sub →
      get_user_id cfg privy_client (some (.jwt payload secret)) = .ok sub) ∧
    (∀ payload other, other ≠ secret →
      get_user_id cfg privy_client (some (.jwt payload other)) =
        .error (.httpError 401 (some "Invalid or expired token"))) := by
  constructor
  · intro payload sub hsub
    unfold get_user_id verify_attempt
    simp [hmode, hsec, hne, jwt_decode, hsub]
  · intro payload other hother
    unfold get_user_id verify_attempt
    simp [hmode, hsec, hne, jwt_decode, hother]

theorem claim_C4_local_secret_verify_witness :
    get_user_id { env := "local", jwt_secret := some "k" }
      { verify_access_token := fun _ => none, get_user := fun _ => none }
      (some (.jwt { sub := some "alice" } "k")) = .ok "alice" ∧
    get_user_id { env := "local", jwt_secret := some "k" }
      { verify_access_token := fun _ => none, get_user := fun _ => none }
      (some (.jwt { sub := some "alice" } "wrong")) =
      .error (.httpError 401 (some "Invalid or expired token")) :=
  have h := claim_C4_local_secret_verify { env := "local", jwt_secret := some "k" }
    { verify_access_token := fun _ => none, get_user := fun _ => none }
    "k" (by decide) rfl (by decide)
  ⟨h.1 { sub := some "alice" } "alice" rfl, h.2 { sub := some "alice" } "wrong" (by decide)⟩

/-- C5: an absent or empty token fails immediately with the 401
missing-credential error; every verification error in Privy or
local-secret mode (failed token verification, failed user lookup, bad
signature or malformed token, missing sub claim) collapses to the single
401 invalid-or-expired-credential error, and the verifier never returns
anything but a full identity or that one error. -/
theorem claim_C5_error_collapse (cfg : AuthConfig) (privy_client : PrivyClient) :
    (get_user_id cfg privy_client none =
      .error (.httpError 401 (some "Missing Authorization header"))) ∧
    (∀ t, is_privy_mode cfg = true → privy_client.verify_access_token t = none →
      get_user_id cfg privy_client (some t) =
        .error (.httpError 401 (some "Invalid or expired token"))) ∧
    (∀ t uid, is_privy_mode cfg = true → privy_client.verify_access_token t = some uid →
      privy_client.get_user uid = none →
      get_user_id cfg privy_client (some t) =
        .error (.httpError 401 (some "Invalid or expired token"))) ∧
    (∀ t secret, is_privy_mode cfg = false → cfg.jwt_secret = some secret → secret ≠ "" →
      jwt_decode secret t = .error () →
      get_user_id cfg privy_client (some t) =
        .error (.httpError 401 (some "Invalid or expired token"))) ∧
    (∀ t payload secret, is_privy_mode cfg = false → cfg.jwt_secret = some secret →
      secret ≠ "" → jwt_decode secret t = .ok payload → payload.sub = none →
      get_user_id cfg privy_client (some t) =
        .error (.httpError 401 (some "Invalid or expired token"))) ∧
    (∀ t, (∃ uid, get_user_id cfg privy_client (some t) = .ok uid) ∨
      get_user_id cfg privy_client (some t) =
        .error (.httpError 401 (some "Invalid or expired token"))) := by
  refine ⟨rfl, ?_, ?_, ?_, ?_, ?_⟩
  · intro t hm hv
    unfold get_user_id verify_attempt
    simp [hm, hv]
  · intro t uid hm hv hg
    unfold get_user_id verify_attempt
    simp [hm, hv, hg]
  · intro t secret hm hs hne hd
    unfold get_user_id verify_attempt
    simp [hm, hs, hne, hd]
  · intro t payload secret hm hs hne hd hsub
    unfold get_user_id verify_attempt
    simp [hm, hs, hne, hd, hsub]
  · intro t
    cases h : verify_attempt cfg privy_client t with
    | ok uid =>
      exact Or.inl ⟨uid, by simp [get_user_id, h]⟩
    | error e =>
      exact Or.inr (by simp [get_user_id, h])

theorem claim_C5_error_collapse_witness :
    get_user_id { env := "testdev", jwt_secret := none }
      { verify_access_token := fun _ => none, get_user := fun _ => none } none =
      .error (.httpError 401 (some "Missing Authorization header")) ∧
    get_user_id { env := "testdev", jwt_secret := none }
      { verify_access_token := fun _ => none, get_user := fun _ => none }
      (some (.raw "x")) = .error (.httpError 401 (some "Invalid or expired token")) :=
  have h := claim_C5_error_collapse { env := "testdev", jwt_secret := none }
    { verify_access_token := fun _ => none, get_user := fun _ => none }
  ⟨h.1, h.2.1 (.raw "x") (by decide) rfl⟩

/-- C6: when the target agent exists, send_message appends the user message
to the message log before any dispatch effect, for every backend; the
persisted store does not depend on the backend at all, so no dispatch
failure (buffered or streamed) can lose the user message. -/
theorem claim_C6_user_message_persisted {Chunk : Type} (db : Db) (backend : ExecBackend Chunk)
    (new_id : Nat) (request : ChatMessageRequest) (aid chat_id user_id : String) (a : AgentRec)
    (hagent : Agent.get db aid = some a) :
    (send_message db backend new_id request aid chat_id user_id).1.messages =
      db.messages ++ [mkUserMessage new_id aid chat_id user_id request] ∧
    mkUserMessage new_id aid chat_id user_id request ∈
      (send_message db backend new_id request aid chat_id user_id).1.messages ∧
    ∀ backend2 : ExecBackend Chunk,
      (send_message db backend2 new_id request aid chat_id user_id).1 =
        (send_message db backend new_id request aid chat_id user_id).1 := by
  have h1 := send_message_fst backend new_id request chat_id user_id hagent
  refine ⟨by rw [h1], ?_, ?_⟩
  · rw [h1]
    simp
  · intro backend2
    rw [h1, send_message_fst backend2 new_id request chat_id user_id hagent]

theorem claim_C6_user_message_persisted_witness :
    (send_message wdb wbackendFail 9 wreq "a1" "c1" "u1").1.messages =
      wdb.messages ++ [mkUserMessage 9 "a1" "c1" "u1" wreq] ∧
    mkUserMessage 9 "a1" "c1" "u1" wreq ∈
      (send_message wdb wbackendFail 9 wreq "a1" "c1" "u1").1.messages :=
  have h := @claim_C6_user_message_persisted Unit wdb wbackendFail 9 wreq "a1" "c1" "u1"
    { id := "a1", owner := "u1", name := "A", description := none } rfl
  ⟨h.1, h.2.1⟩

/-- C7: in streamed dispatch mode the response body is the list of
newline-terminated independent serializations of the chunks the backend
produced, in production order; each emitted unit depends only on the
chunks consumed so far; and if the backend errors mid-stream the output is
a prefix of the serialization of the full intended sequence, with the
already-emitted units unchanged. -/
theorem claim_C7_streaming {Chunk : Type} (db : Db) (backend : ExecBackend Chunk)
    (new_id : Nat) (request : ChatMessageRequest) (aid chat_id user_id : String) (a : AgentRec)
    (hagent : Agent.get db aid = some a) (hstream : request.stream = some true) :
    (send_message db backend new_id request aid chat_id user_id).2 =
      .ok (.streamed (stream_gen backend.serializeChunk
        (backend.stream_agent (mkUserMessage new_id aid chat_id user_id request)).1)) ∧
    (∀ chunks : List Chunk, stream_gen backend.serializeChunk chunks =
      chunks.map (fun c => backend.serializeChunk c ++ "\n")) ∧
    (∀ (chunks : List Chunk) (n : Nat),
      (stream_gen backend.serializeChunk chunks).take n =
        stream_gen backend.serializeChunk (chunks.take n)) ∧
    (∀ produced rest : List Chunk, ∃ tail,
      stream_gen backend.serializeChunk produced ++ tail =
        stream_gen backend.serializeChunk (produced ++ rest)) := by
  refine ⟨?_, ?_, ?_, ?_⟩
  · rw [send_message_snd backend new_id request chat_id user_id hagent, if_pos hstream]
  · exact stream_gen_map backend.serializeChunk
  · exact stream_gen_take backend.serializeChunk
  · intro produced rest
    exact ⟨stream_gen backend.serializeChunk rest, (stream_gen_append _ produced rest).symm⟩

theorem claim_C7_streaming_witness :
    (send_message wdb wbackendStream 9 wreqStream "a1" "c1" "u1").2 =
      .ok (.streamed (stream_gen wbackendStream.serializeChunk
        (wbackendStream.stream_agent (mkUserMessage 9 "a1" "c1" "u1" wreqStream)).1)) :=
  (@claim_C7_streaming Unit wdb wbackendStream 9 wreqStream "a1" "c1" "u1"
    { id := "a1", owner := "u1", name := "A", description := none } rfl rfl).1

/-- C8: the retry endpoint always fails with 501 Not Implemented, never
succeeds, and leaves the store untouched, for every caller, agent and
thread. -/
theorem claim_C8_retry_not_implemented (db : Db) (aid chat_id user_id : String) :
    retry_message db aid chat_id user_id = (db, .error (.httpError 501 none)) := rfl

/-- C9: a PATCH of a chat thread that passes the existence-and-ownership
check leaves the store entirely unchanged (no field of any thread,
including summary, is modified) and echoes the thread exactly as stored
before the call. -/
theorem claim_C9_update_chat_is_pure_echo {db : Db} {aid chat_id user_id : String}
    {chat : ChatRec} (hchat : Chat.get db chat_id = some chat) (ha : chat.agent_id = aid)
    (hu : chat.user_id = user_id) :
    update_chat db aid chat_id user_id = (db, .ok chat) := by
  unfold update_chat
  rw [hchat]
  simp [ha, hu]

theorem claim_C9_update_chat_is_pure_echo_witness :
    update_chat wdb "a1" "c1" "u1" =
      (wdb, .ok { id := "c1", agent_id := "a1", user_id := "u1", summary := "", rounds := 0 }) :=
  @claim_C9_update_chat_is_pure_echo wdb "a1" "c1" "u1"
    { id := "c1", agent_id := "a1", user_id := "u1", summary := "", rounds := 0 } rfl rfl rfl

/-- C10: send_message 404s exactly when the agent is absent; when the agent
exists it performs no ownership check on the agent and no existence or
ownership check on the chat thread: for every caller and every chat_id it
persists the user message under (agent_id, chat_id) and dispatches it, and
its response is never an HTTP error. -/
theorem claim_C10_send_message_no_ownership_check {Chunk : Type} (db : Db)
    (backend : ExecBackend Chunk) (new_id : Nat) (request : ChatMessageRequest)
    (aid chat_id user_id : String) :
    (Agent.get db aid = none →
      send_message db backend new_id request aid chat_id user_id =
        (db, .error (.httpError 404 (some ("Agent " ++ aid ++ " not found"))))) ∧
    (∀ a, Agent.get db aid = some a →
      (send_message db backend new_id request aid chat_id user_id).1.messages =
        db.messages ++ [mkUserMessage new_id aid chat_id user_id request] ∧
      (∀ s d, (send_message db backend new_id request aid chat_id user_id).2 ≠
        .error (.httpError s d)) ∧
      (request.stream = some true →
        (send_message db backend new_id request aid chat_id user_id).2 =
          .ok (.streamed (stream_gen backend.serializeChunk
            (backend.stream_agent (mkUserMessage new_id aid chat_id user_id request)).1))) ∧
      (request.stream ≠ some true →
        (send_message db backend new_id request aid chat_id user_id).2 =
          match backend.execute_agent (mkUserMessage new_id aid chat_id user_id request) with
          | .ok ms => .ok (.buffered ms)
          | .error _ => .error .serverError)) := by
  constructor
  · intro h
    unfold send_message
    rw [h]
  · intro a ha
    have h1 := send_message_fst backend new_id request chat_id user_id ha
    have h2 := send_message_snd backend new_id request chat_id user_id ha
    refine ⟨by rw [h1], ?_, ?_, ?_⟩
    · intro s d
      rw [h2]
      by_cases hs : request.stream = some true
      · rw [if_pos hs]
        intro hcontra
        exact Except.noConfusion hcontra
      · rw [if_neg hs]
        cases backend.execute_agent (mkUserMessage new_id aid chat_id user_id request) with
        | ok ms => exact fun hcontra => Except.noConfusion hcontra
        | error e =>
          intro hcontra
          exact ApiError.noConfusion (Except.error.inj hcontra)
    · intro hs
      rw [h2, if_pos hs]
    · intro hs
      rw [h2, if_neg hs]

theorem claim_C10_send_message_no_ownership_check_witness :
    send_message wdb wbackendFail 9 wreq "zzz" "c1" "u1" =
      (wdb, .error (.httpError 404 (some ("Agent " ++ "zzz" ++ " not found")))) ∧
    (send_message wdb wbackendFail 9 wreq "a1" "foreign-chat" "u2").1.messages =
      wdb.messages ++ [mkUserMessage 9 "a1" "foreign-chat" "u2" wreq] :=
  ⟨(@claim_C10_send_message_no_ownership_check Unit wdb wbackendFail 9 wreq "zzz" "c1" "u1").1
      rfl,
    ((@claim_C10_send_message_no_ownership_check Unit wdb wbackendFail 9 wreq "a1"
      "foreign-chat" "u2").2
      { id := "a1", owner := "u1", name := "A", description := none } rfl).1⟩
